import Mathlib

/-!
Shallow embedding of the filter-to-query translation and aggregation engine
of the analytic data service (files `app/services/data.py`,
`app/services/sop.py` and the schema types in `app/schemas/base.py`,
`app/schemas/data.py`, `app/schemas/sop.py`).

Conventions of the embedding:
* Python dynamic values (`Any`) are modelled by the inductive `Value`;
  `None` is `Value.null`, and Python truthiness of an optional value is
  modelled explicitly at each use site, matching the source expression.
* Python dicts built by successive fresh-key insertion are modelled as
  insertion-ordered association lists `List (String × Value)`.
* `str.isalnum` is modelled by `Char.isAlphanum` (the embedding covers the
  ASCII fragment of the Unicode predicate).
* The whitespace layout of the multi-line SQL f-strings is condensed to
  single spaces; the fragments and their order are kept verbatim.
* The database executor is out of scope (per the spec an external
  collaborator): query functions take it as an argument
  `Exec := String → List (String × Value) → List Row`.
* `schemas/base.py` sets `use_enum_values=True`, so validated enum fields
  hold the enum's value — a plain string. Attribute accesses `.value` on
  such fields raise AttributeError at runtime; they are modelled by
  `strValueAttr` and the `Except`-valued aggregation build
  (`aliasOrDeriveE`, `aggAggStepE`, `aggSelectStateE`), while the pure
  fragment builders alongside them describe only the text the source
  expressions denote.
-/

namespace DataServices

/-- Dynamic (Python `Any`) values that appear as filter values and query
parameters. -/
inductive Value where
  | str (s : String)
  | int (n : Int)
  | list (vs : List Value)
  | null

mutual
/-- Python `str(v)`, for the cases the services apply it to (series
discriminators and CSV cells). Lists are rendered approximately. -/
def pyStr : Value → String
  | .str s => s
  | .int n => toString n
  | .null => "None"
  | .list vs => "[" ++ String.intercalate ", " (pyStrList vs) ++ "]"

def pyStrList : List Value → List String
  | [] => []
  | v :: vs => pyStr v :: pyStrList vs
end

/-- `True` iff the value is Python `None`. -/
def Value.isNull : Value → Bool
  | .null => true
  | _ => false

/-- `app/schemas/base.py` `FilterOperator`. -/
inductive FilterOperator where
  | eq | neq | gt | gte | lt | lte
  | inList | notInList
  | like | ilike
  | between
  | isNull | isNotNull
deriving DecidableEq

/-- `app/schemas/base.py` `FilterCondition`; `value` defaults to `None`
and `values` to `None`. -/
structure FilterCondition where
  field : String
  operator : FilterOperator
  value : Value := .null
  values : Option (List Value) := none

/-- `app/schemas/base.py` `FilterParams` (the spec's FilterSet). -/
structure FilterParams where
  conditions : List FilterCondition := []
  logic : String := "AND"

/-- Python `str.upper()` (ASCII fragment), used on the FilterSet's `logic`. -/
def pyUpper (s : String) : String :=
  String.mk (s.toList.map Char.toUpper)

/-- `DataService._sanitize_identifier`: keep only alphanumeric characters and
underscores, then backtick-quote. -/
def sanitizeIdentifier (identifier : String) : String :=
  let sanitized := String.mk (identifier.toList.filter (fun ch => ch.isAlphanum || ch == '_'))
  "`" ++ sanitized ++ "`"

/-- The binding used by IN / NOT IN: `condition.values or [condition.value]`
(Python `or`, so an absent or empty list falls back to `[value]`). -/
def inBinding (c : FilterCondition) : Value :=
  match c.values with
  | some [] => Value.list [c.value]
  | some (v :: vs) => Value.list (v :: vs)
  | none => Value.list [c.value]

/-- `DataService._build_condition`: one clause plus the parameter entries it
binds (the Python version writes them into a shared dict; the entries are
appended in the same order here). An unsupported combination — BETWEEN with
fewer than two values — yields `("", [])`. -/
def buildCondition (c : FilterCondition) (paramName : String) :
    String × List (String × Value) :=
  let field := sanitizeIdentifier c.field
  match c.operator with
  | .eq => (field ++ " = %(" ++ paramName ++ ")s", [(paramName, c.value)])
  | .neq => (field ++ " != %(" ++ paramName ++ ")s", [(paramName, c.value)])
  | .gt => (field ++ " > %(" ++ paramName ++ ")s", [(paramName, c.value)])
  | .gte => (field ++ " >= %(" ++ paramName ++ ")s", [(paramName, c.value)])
  | .lt => (field ++ " < %(" ++ paramName ++ ")s", [(paramName, c.value)])
  | .lte => (field ++ " <= %(" ++ paramName ++ ")s", [(paramName, c.value)])
  | .inList => (field ++ " IN %(" ++ paramName ++ ")s", [(paramName, inBinding c)])
  | .notInList => (field ++ " NOT IN %(" ++ paramName ++ ")s", [(paramName, inBinding c)])
  | .like => (field ++ " LIKE %(" ++ paramName ++ ")s", [(paramName, c.value)])
  | .ilike => ("lower(" ++ field ++ ") LIKE lower(%(" ++ paramName ++ ")s)",
      [(paramName, c.value)])
  | .between =>
    match c.values with
    | some (v1 :: v2 :: _) =>
      (field ++ " BETWEEN %(" ++ paramName ++ "_min)s AND %(" ++ paramName ++ "_max)s",
       [(paramName ++ "_min", v1), (paramName ++ "_max", v2)])
    | _ => ("", [])
  | .isNull => (field ++ " IS NULL", [])
  | .isNotNull => (field ++ " IS NOT NULL", [])

/-- The loop body of `DataService._build_filter_clause`: conditions are
numbered from `i`, empty clauses are skipped, parameter entries accumulate. -/
def buildConditionList : List FilterCondition → String → Nat →
    List String × List (String × Value)
  | [], _, _ => ([], [])
  | c :: rest, pfx, i =>
    let pr := buildCondition c (pfx ++ "_" ++ toString i)
    let tl := buildConditionList rest pfx (i + 1)
    (if pr.1 = "" then tl.1 else pr.1 :: tl.1, pr.2 ++ tl.2)

/-- `DataService._build_filter_clause` (the Filter Translator): clauses joined
with the set's logic operator and parenthesized; default prefix is `"f"`. -/
def buildFilterClause (filters : Option FilterParams) (pfx : String) :
    String × List (String × Value) :=
  match filters with
  | none => ("", [])
  | some fs =>
    match fs.conditions with
    | [] => ("", [])
    | c :: rest =>
      let pr := buildConditionList (c :: rest) pfx 0
      match pr.1 with
      | [] => ("", [])
      | _ :: _ =>
        let logic := if pyUpper fs.logic = "AND" then " AND " else " OR "
        ("(" ++ String.intercalate logic pr.1 ++ ")", pr.2)

/-- A condition is well formed when its operator's required value/values are
present: value operators need a non-`None` `value`, IN/NOT IN need `values`
or a `value`, BETWEEN needs `values` with at least two entries, and the null
tests need nothing. -/
def wellFormed (c : FilterCondition) : Bool :=
  match c.operator with
  | .between =>
    match c.values with
    | some (_ :: _ :: _) => true
    | _ => false
  | .isNull => true
  | .isNotNull => true
  | .inList => c.values.isSome || !c.value.isNull
  | .notInList => c.values.isSome || !c.value.isNull
  | _ => !c.value.isNull

/-- How many named-parameter entries one clause is specified to bind: two for
BETWEEN, none for the null tests, one otherwise. -/
def paramEntryCount (c : FilterCondition) : Nat :=
  match c.operator with
  | .between => 2
  | .isNull => 0
  | .isNotNull => 0
  | _ => 1

theorem append_ne_empty (a b : String) (hb : b.length ≠ 0) : a ++ b ≠ "" := by
  intro h
  have hl := congrArg String.length h
  rw [String.length_append] at hl
  have h0 : ("" : String).length = 0 := rfl
  omega

theorem buildCondition_spec (c : FilterCondition) (p : String)
    (h : wellFormed c = true) :
    (buildCondition c p).1 ≠ "" ∧ (buildCondition c p).2.length = paramEntryCount c := by
  rcases c with ⟨fld, op, v, vs⟩
  cases op
  case between =>
    rcases vs with _ | vlist
    · simp [wellFormed] at h
    · rcases vlist with _ | ⟨v1, vtl⟩
      · simp [wellFormed] at h
      · rcases vtl with _ | ⟨v2, rest⟩
        · simp [wellFormed] at h
        · exact ⟨append_ne_empty _ _ (by decide), rfl⟩
  all_goals exact ⟨append_ne_empty _ _ (by decide), rfl⟩

theorem buildConditionList_spec (conds : List FilterCondition) (pfx : String) (i : Nat)
    (h : ∀ c ∈ conds, wellFormed c = true) :
    (buildConditionList conds pfx i).1.length = conds.length ∧
    (buildConditionList conds pfx i).2.length = (conds.map paramEntryCount).sum := by
  induction conds generalizing i with
  | nil => simp [buildConditionList]
  | cons c rest ih =>
    have hc := buildCondition_spec c (pfx ++ "_" ++ toString i) (h c (by simp))
    have hr := ih (i + 1) (fun x hx => h x (by simp [hx]))
    simp only [buildConditionList, if_neg hc.1, List.length_cons, List.length_append,
      List.map_cons, List.sum_cons]
    omega

theorem buildFilterClause_cons (c : FilterCondition) (rest : List FilterCondition)
    (lg pfx : String) (a : String) (as : List String)
    (hcl : (buildConditionList (c :: rest) pfx 0).1 = a :: as) :
    buildFilterClause (some ⟨c :: rest, lg⟩) pfx =
      ("(" ++ String.intercalate (if pyUpper lg = "AND" then " AND " else " OR ")
          ((buildConditionList (c :: rest) pfx 0).1) ++ ")",
       (buildConditionList (c :: rest) pfx 0).2) := by
  simp only [buildFilterClause]
  rw [hcl]

/-- A concrete well-formed FilterSet used to instantiate the C1 theorem. -/
def c1Fs : FilterParams :=
  { conditions :=
      [⟨"year", .eq, .int 2024, none⟩,
       ⟨"price", .between, .null, some [.int 1, .int 10]⟩,
       ⟨"note", .isNull, .null, none⟩],
    logic := "AND" }

/-- C1: for every well-formed FilterSet with `N` conditions and declared
logic operator `AND` or `OR`, the translated predicate is exactly the `N`
clauses joined by that operator and parenthesized as a single group, and the
named-parameter map has one entry per value-binding clause, two entries per
BETWEEN clause and none for the IS NULL / IS NOT NULL clauses. -/
theorem filter_translation_clause_and_param_counts
    (fs : FilterParams)
    (hne : fs.conditions ≠ [])
    (hwf : ∀ c ∈ fs.conditions, wellFormed c = true)
    (hlogic : fs.logic = "AND" ∨ fs.logic = "OR") :
    ∃ clauses : List String,
      clauses.length = fs.conditions.length ∧
      (buildFilterClause (some fs) "f").1 =
        "(" ++ String.intercalate (" " ++ fs.logic ++ " ") clauses ++ ")" ∧
      (buildFilterClause (some fs) "f").2.length =
        (fs.conditions.map paramEntryCount).sum := by
  rcases fs with ⟨conds, lg⟩
  rcases conds with _ | ⟨c, rest⟩
  · exact absurd rfl hne
  · simp only at hwf ⊢
    have hspec := buildConditionList_spec (c :: rest) "f" 0 hwf
    rcases hcl : (buildConditionList (c :: rest) "f" 0).1 with _ | ⟨a, as⟩
    · rw [hcl] at hspec
      simp at hspec
    · have hq := buildFilterClause_cons c rest lg "f" a as hcl
      refine ⟨(buildConditionList (c :: rest) "f" 0).1, hspec.1, ?_, ?_⟩
      · rw [hq]
        rcases hlogic with h | h <;> simp only at h <;> subst h
        · rfl
        · rfl
      · rw [hq]
        exact hspec.2

theorem filter_translation_clause_and_param_counts_witness :
    ∃ clauses : List String,
      clauses.length = c1Fs.conditions.length ∧
      (buildFilterClause (some c1Fs) "f").1 =
        "(" ++ String.intercalate (" " ++ c1Fs.logic ++ " ") clauses ++ ")" ∧
      (buildFilterClause (some c1Fs) "f").2.length =
        (c1Fs.conditions.map paramEntryCount).sum :=
  filter_translation_clause_and_param_counts c1Fs
    (by simp [c1Fs]) (by decide) (Or.inl rfl)

/-- C2 counterexample: the string "a;b" contains a character outside the
allowed class, yet the sanitizer silently strips it and filter translation
succeeds and assembles a predicate — it does not fail with InvalidIdentifier. -/
theorem sanitizer_strips_instead_of_failing_cex :
    ("a;b".toList.all (fun ch => ch.isAlphanum || ch == '_')) = false ∧
    sanitizeIdentifier "a;b" = "`ab`" ∧
    (buildFilterClause (some ⟨[⟨"a;b", .eq, .int 2024, none⟩], "AND"⟩) "f").1 =
      "(`ab` = %(f_0)s)" :=
  ⟨by decide, by decide, by decide⟩

/-- C2 amended: for every input string the sanitizer strips the characters
outside the allowed class and returns the remainder backtick-quoted; it always
returns a quoted identifier containing only allowed characters and never
fails, so translation proceeds with the stripped identifier. -/
theorem sanitizer_always_returns_safe_quoted (s : String) :
    ∃ inner : String,
      sanitizeIdentifier s = "`" ++ inner ++ "`" ∧
      ∀ ch ∈ inner.toList, (ch.isAlphanum || ch == '_') = true := by
  refine ⟨String.mk (s.toList.filter fun ch => ch.isAlphanum || ch == '_'), rfl, ?_⟩
  intro ch hch
  exact (List.mem_filter.mp hch).2

/-- C3 counterexample: a BETWEEN condition with a single value is silently
skipped — `_build_condition` returns the empty clause with no parameters, and
the whole filter translates to the empty predicate instead of failing with
InvalidFilter. -/
theorem between_insufficient_values_skipped_cex :
    buildCondition ⟨"price", .between, .null, some [.int 5]⟩ "f_0" = ("", []) ∧
    buildFilterClause (some ⟨[⟨"price", .between, .null, some [.int 5]⟩], "AND"⟩) "f" =
      ("", []) :=
  ⟨rfl, rfl⟩

/-- C3 amended: a BETWEEN condition whose values list is absent or has fewer
than two entries produces no clause and binds no parameters (the condition is
silently skipped); translation does not fail. -/
theorem between_insufficient_values_skipped
    (c : FilterCondition) (p : String)
    (hop : c.operator = .between)
    (hv : ∀ vs, c.values = some vs → vs.length < 2) :
    buildCondition c p = ("", []) := by
  rcases c with ⟨fld, op, v, vs⟩
  simp only at hop hv
  subst hop
  rcases vs with _ | ⟨_ | ⟨v1, _ | ⟨v2, vtl⟩⟩⟩
  · rfl
  · rfl
  · rfl
  · have := hv (v1 :: v2 :: vtl) rfl
    simp at this
    omega

theorem between_insufficient_values_skipped_witness :
    buildCondition ⟨"price", .between, .null, some [.int 5]⟩ "f_9" = ("", []) :=
  between_insufficient_values_skipped _ _ rfl
    (by rintro vs h; cases h; decide)

/-- `app/schemas/base.py` `SortOrder`. -/
inductive SortOrder where
  | asc | desc
deriving DecidableEq

/-- The string value of the `SortOrder` enum member. -/
def sortOrderValue : SortOrder → String
  | .asc => "asc"
  | .desc => "desc"

/-- `app/schemas/base.py` `SortParams`. -/
structure SortParams where
  field : String
  order : SortOrder := .asc

/-- `app/schemas/data.py` `DataQueryRequest`. The table reference is taken
after `_resolve_table_name` (the data-source lookup is an external store
call out of scope here). -/
structure DataQueryRequest where
  tableName : String
  columns : Option (List String) := none
  filters : Option FilterParams := none
  sort : List SortParams := []
  page : Nat := 1
  page_size : Nat := 50

/-- The SELECT column list of `DataService.query_data`: sanitize each
requested column, or `*` when none are requested. -/
def dataSelectColumns (req : DataQueryRequest) : String :=
  match req.columns with
  | some (c :: cs) => String.intercalate ", " ((c :: cs).map sanitizeIdentifier)
  | _ => "*"

/-- The ORDER BY fragment of `DataService.query_data` (the text its f-string
denotes). Note: the source spells the direction `s.order.value.upper()`
(data.py:147,238); under `use_enum_values` the order field is a plain `str`,
so any request with a non-empty sort list raises AttributeError before
issuing queries — such requests issue no queries at all, which is why the C4
consistency relation below concerns the assembled pair. -/
def dataOrderSql (req : DataQueryRequest) : String :=
  match req.sort with
  | [] => ""
  | s :: ss =>
    "ORDER BY " ++ String.intercalate ", "
      (((s :: ss)).map fun s => sanitizeIdentifier s.field ++ " " ++ pyUpper (sortOrderValue s.order))

/-- The WHERE fragment of `DataService.query_data` / `aggregate_data` /
`export_data`: prefix `WHERE` only when the predicate is non-empty. -/
def dataWhereSql (req : DataQueryRequest) : String :=
  let wc := (buildFilterClause req.filters "f").1
  if wc = "" then "" else "WHERE " ++ wc

/-- One logical request that issues a paged row query plus a count query. -/
structure TwoQueryPlan where
  querySql : String
  queryParams : List (String × Value)
  countSql : String
  countParams : List (String × Value)

/-- `DataService.query_data`: the two statements it sends to the executor and
their parameter maps (page data uses filter params plus `limit`/`offset`; the
count query is run with the filter params only). -/
def dataQueryPlan (req : DataQueryRequest) : TwoQueryPlan :=
  let filterParams := (buildFilterClause req.filters "f").2
  let whereSql := dataWhereSql req
  let offset := (req.page - 1) * req.page_size
  { querySql := "SELECT " ++ dataSelectColumns req ++ " FROM "
      ++ sanitizeIdentifier req.tableName ++ " " ++ whereSql ++ " "
      ++ dataOrderSql req ++ " LIMIT %(limit)s OFFSET %(offset)s",
    queryParams := filterParams
      ++ [("limit", Value.int req.page_size), ("offset", Value.int offset)],
    countSql := "SELECT count() as total FROM "
      ++ sanitizeIdentifier req.tableName ++ " " ++ whereSql,
    countParams := filterParams }

theorem buildCondition_keys (c : FilterCondition) (p : String) :
    ∀ kv ∈ (buildCondition c p).2, ∃ suf, kv.1 = p ++ suf := by
  intro kv hkv
  rcases c with ⟨fld, op, v, vs⟩
  cases op <;>
    first
      | (simp only [buildCondition, List.mem_singleton] at hkv
         exact ⟨"", by rw [hkv, String.append_empty]⟩)
      | (simp only [buildCondition, List.not_mem_nil] at hkv)
      | skip
  -- remaining: BETWEEN
  rcases vs with _ | ⟨_ | ⟨v1, _ | ⟨v2, vtl⟩⟩⟩ <;>
    simp only [buildCondition, List.not_mem_nil, List.mem_cons, List.mem_singleton,
      List.not_mem_nil, or_false] at hkv
  rcases hkv with rfl | rfl
  · exact ⟨"_min", rfl⟩
  · exact ⟨"_max", rfl⟩

theorem buildConditionList_keys (conds : List FilterCondition) (pfx : String) (i : Nat) :
    ∀ kv ∈ (buildConditionList conds pfx i).2, ∃ suf, kv.1 = pfx ++ "_" ++ suf := by
  induction conds generalizing i with
  | nil => intro kv hkv; simp [buildConditionList] at hkv
  | cons c rest ih =>
    intro kv hkv
    simp only [buildConditionList, List.mem_append] at hkv
    rcases hkv with h | h
    · obtain ⟨suf, hsuf⟩ := buildCondition_keys c (pfx ++ "_" ++ toString i) kv h
      exact ⟨toString i ++ suf, by rw [hsuf, String.append_assoc]⟩
    · exact ih (i + 1) kv h

theorem buildFilterClause_keys (filters : Option FilterParams) (pfx : String) :
    ∀ kv ∈ (buildFilterClause filters pfx).2, ∃ suf, kv.1 = pfx ++ "_" ++ suf := by
  intro kv hkv
  rcases filters with _ | fs
  · simp [buildFilterClause] at hkv
  · rcases fs with ⟨conds, lg⟩
    rcases conds with _ | ⟨c, rest⟩
    · simp [buildFilterClause] at hkv
    · simp only [buildFilterClause] at hkv
      rcases hcl : (buildConditionList (c :: rest) pfx 0).1 with _ | ⟨a, as⟩ <;>
        rw [hcl] at hkv
      · simp at hkv
      · exact buildConditionList_keys (c :: rest) pfx 0 kv hkv

theorem f_key_ne_pagination (suf : String) :
    (!(("f_" ++ suf : String) == "limit" || ("f_" ++ suf : String) == "offset")) = true := by
  have h1 : ¬ ("f_" ++ suf : String) = "limit" := by
    intro h
    have hd := congrArg String.data h
    rw [String.data_append] at hd
    simp at hd
  have h2 : ¬ ("f_" ++ suf : String) = "offset" := by
    intro h
    have hd := congrArg String.data h
    rw [String.data_append] at hd
    simp at hd
  simp [h1, h2]

/-- `app/schemas/sop.py` `SopFilterParams`. -/
structure SopFilterParams where
  years : Option (List Int) := none
  months : Option (List Int) := none
  priznaks : Option (List String) := none
  drivers : Option (List String) := none
  finkod_codes : Option (List String) := none
  finkod_groups : Option (List String) := none
  category_codes : Option (List String) := none
  territories : Option (List String) := none
  macroregion_codes : Option (List String) := none
  units : Option (List String) := none
  search : Option String := none

/-- The full-text search condition of `SopService._build_where_clause`
(triple-quoted in the source; reproduced with its newlines and indentation). -/
def sopSearchCond : String :=
  "(\n                    finkod_name ILIKE %(search)s OR\n                    category_name ILIKE %(search)s OR\n                    macroregion_name ILIKE %(search)s OR\n                    territory ILIKE %(search)s\n                )"

/-- The sequence of `if <filter field>:` blocks of
`SopService._build_where_clause`, in source order. Each entry is the clause
appended to `conditions` paired with the entries added to `params` by that
block (`none` when the block's guard is falsy). Python truthiness of
`list | None` and `str | None` fields is modelled by the match patterns. -/
def sopFilterItems (f : SopFilterParams) : List (Option (String × List (String × Value))) :=
  [(match f.years with
    | some (v :: tl) =>
      some ("year IN %(years)s", [("years", Value.list ((v :: tl).map Value.int))])
    | _ => none),
   (match f.months with
    | some (v :: tl) =>
      some ("month IN %(months)s", [("months", Value.list ((v :: tl).map Value.int))])
    | _ => none),
   (match f.priznaks with
    | some (v :: tl) =>
      some ("priznak IN %(priznaks)s", [("priznaks", Value.list ((v :: tl).map Value.str))])
    | _ => none),
   (match f.drivers with
    | some (v :: tl) =>
      some ("driver IN %(drivers)s", [("drivers", Value.list ((v :: tl).map Value.str))])
    | _ => none),
   (match f.finkod_codes with
    | some (v :: tl) =>
      some ("finkod_code IN %(finkod_codes)s",
        [("finkod_codes", Value.list ((v :: tl).map Value.str))])
    | _ => none),
   (match f.finkod_groups with
    | some (g :: gs) =>
      some ("(" ++ String.intercalate " OR "
          (((g :: gs)).map fun x => "startsWith(finkod_code, \x27" ++ x ++ "\x27)") ++ ")",
        [])
    | _ => none),
   (match f.category_codes with
    | some (v :: tl) =>
      some ("category_code IN %(category_codes)s",
        [("category_codes", Value.list ((v :: tl).map Value.str))])
    | _ => none),
   (match f.territories with
    | some (v :: tl) =>
      some ("territory IN %(territories)s",
        [("territories", Value.list ((v :: tl).map Value.str))])
    | _ => none),
   (match f.macroregion_codes with
    | some (v :: tl) =>
      some ("macroregion_code IN %(macroregion_codes)s",
        [("macroregion_codes", Value.list ((v :: tl).map Value.str))])
    | _ => none),
   (match f.units with
    | some (v :: tl) =>
      some ("unit IN %(units)s", [("units", Value.list ((v :: tl).map Value.str))])
    | _ => none),
   (match f.search with
    | some s =>
      if s = "" then none
      else some (sopSearchCond, [("search", Value.str ("%" ++ s ++ "%"))])
    | none => none)]

/-- `SopService._build_where_clause`: conjoin the active filter blocks; the
`WHERE` keyword is part of the returned clause in this service. -/
def buildWhereClause : Option SopFilterParams → String × List (String × Value)
  | none => ("", [])
  | some f =>
    let items := (sopFilterItems f).filterMap id
    if items.isEmpty then ("", [])
    else
      ("WHERE " ++ String.intercalate " AND " (items.map Prod.fst),
       (items.map Prod.snd).flatten)

/-- `app/schemas/sop.py` `SopSortParams` (plain strings in this service). -/
structure SopSortParams where
  field : String := "year"
  order : String := "desc"

/-- `app/schemas/sop.py` `SopQueryRequest`. -/
structure SopQueryRequest where
  filters : Option SopFilterParams := none
  sort : List SopSortParams := [⟨"year", "desc"⟩]
  page : Nat := 1
  page_size : Nat := 50
  columns : Option (List String) := none

/-- `SopService.COLUMN_LABELS`, in source order. -/
def COLUMN_LABELS : List (String × String) :=
  [("model", "Модель"),
   ("priznak", "Признак"),
   ("driver", "Драйвер"),
   ("finkod_code", "Финкод Код"),
   ("finkod_name", "Финкод код_назв"),
   ("category_code", "Категория"),
   ("category_name", "Категория название"),
   ("macroregion_code", "Макрорегион код"),
   ("macroregion_name", "Макрорегион название"),
   ("territory", "Территория название"),
   ("year", "Год"),
   ("month", "Месяц"),
   ("unit", "ЕИ"),
   ("value", "Прогноз")]

/-- `SopService._sanitize_column`: allow-list of the label keys plus
`id`, `created_at`, `updated_at`; anything else becomes the safe `id`. -/
def sanitizeColumn (column : String) : String :=
  let allowed := COLUMN_LABELS.map Prod.fst ++ ["id", "created_at", "updated_at"]
  if allowed.contains column then "`" ++ column ++ "`" else "`id`"

/-- `COLUMN_LABELS.get(col, col)`: the display label with the raw name as
fallback. -/
def labelFor (col : String) : String :=
  (COLUMN_LABELS.lookup col).getD col

/-- Python `str.lower()` (ASCII fragment), used on SOP sort orders. -/
def pyLower (s : String) : String :=
  String.mk (s.toList.map Char.toLower)

/-- The SELECT column list of `SopService.query_data` / `export_data`: the
sanitized requested columns, or every labelled column. -/
def sopSelectColumns (cols : Option (List String)) : String :=
  match cols with
  | some (c :: cs) => String.intercalate ", " ((c :: cs).map sanitizeColumn)
  | _ => String.intercalate ", " (COLUMN_LABELS.map fun kv => "`" ++ kv.1 ++ "`")

/-- The ORDER BY of `SopService.query_data`, with its fixed fallback. -/
def sopOrderBy (sort : List SopSortParams) : String :=
  let orderParts := sort.map fun s =>
    sanitizeColumn s.field ++ " " ++ (if pyLower s.order = "desc" then "DESC" else "ASC")
  match orderParts with
  | [] => "ORDER BY year DESC, month ASC"
  | _ :: _ => "ORDER BY " ++ String.intercalate ", " orderParts

/-- `SopService.query_data`: the row query plus its count query. The Python
version adds `limit`/`offset` into the shared params dict and then rebuilds
`count_params` by dropping exactly those two keys. -/
def sopQueryPlan (req : SopQueryRequest) : TwoQueryPlan :=
  let wpair := buildWhereClause req.filters
  let offset := (req.page - 1) * req.page_size
  let params := wpair.2
    ++ [("limit", Value.int req.page_size), ("offset", Value.int offset)]
  { querySql := "SELECT " ++ sopSelectColumns req.columns ++ " FROM sop_facts "
      ++ wpair.1 ++ " " ++ sopOrderBy req.sort ++ " LIMIT %(limit)s OFFSET %(offset)s",
    queryParams := params,
    countSql := "SELECT count() as total FROM sop_facts " ++ wpair.1,
    countParams := params.filter fun kv => !(kv.1 == "limit" || kv.1 == "offset") }

theorem sopWhereParams_keys (F : Option SopFilterParams) :
    ∀ kv ∈ (buildWhereClause F).2, (!(kv.1 == "limit" || kv.1 == "offset")) = true := by
  intro kv hkv
  rcases F with _ | f
  · simp [buildWhereClause] at hkv
  · simp only [buildWhereClause] at hkv
    split at hkv
    · simp at hkv
    · rw [List.mem_flatten] at hkv
      obtain ⟨l, hl, hkvl⟩ := hkv
      rw [List.mem_map] at hl
      obtain ⟨it, hitmem, rfl⟩ := hl
      rw [List.mem_filterMap] at hitmem
      obtain ⟨oit, hoit, hid⟩ := hitmem
      simp only [id_eq] at hid
      subst hid
      simp only [sopFilterItems, List.mem_cons, List.not_mem_nil, or_false] at hoit
      rcases hoit with h|h|h|h|h|h|h|h|h|h|h <;>
        (split at h <;> try split at h) <;>
        simp at h <;>
        (try subst h) <;>
        simp at hkvl <;>
        (try subst hkvl) <;>
        rfl

/-- C4: in both services, the paged row query and its paired count query
embed the byte-identical WHERE fragment, and the count query's parameter
bindings are exactly the row query's bindings with only the pagination keys
(`limit`/`offset`) removed. -/
theorem paged_and_count_query_consistency (req : DataQueryRequest) (sreq : SopQueryRequest) :
    (∃ pre post cpre,
        (dataQueryPlan req).querySql = pre ++ dataWhereSql req ++ post ∧
        (dataQueryPlan req).countSql = cpre ++ dataWhereSql req) ∧
    (dataQueryPlan req).countParams =
      (dataQueryPlan req).queryParams.filter
        (fun kv => !(kv.1 == "limit" || kv.1 == "offset")) ∧
    (∃ pre post cpre,
        (sopQueryPlan sreq).querySql = pre ++ (buildWhereClause sreq.filters).1 ++ post ∧
        (sopQueryPlan sreq).countSql = cpre ++ (buildWhereClause sreq.filters).1) ∧
    (sopQueryPlan sreq).countParams = (buildWhereClause sreq.filters).2 := by
  refine ⟨⟨"SELECT " ++ dataSelectColumns req ++ " FROM "
            ++ sanitizeIdentifier req.tableName ++ " ",
          " " ++ dataOrderSql req ++ " LIMIT %(limit)s OFFSET %(offset)s",
          "SELECT count() as total FROM " ++ sanitizeIdentifier req.tableName ++ " ",
          ?_, ?_⟩, ?_,
        ⟨"SELECT " ++ sopSelectColumns sreq.columns ++ " FROM sop_facts ",
          " " ++ sopOrderBy sreq.sort ++ " LIMIT %(limit)s OFFSET %(offset)s",
          "SELECT count() as total FROM sop_facts ",
          ?_, ?_⟩, ?_⟩
  · simp only [dataQueryPlan, String.append_assoc]
  · simp only [dataQueryPlan, String.append_assoc]
  · simp only [dataQueryPlan]
    rw [List.filter_append]
    have h1 : (buildFilterClause req.filters "f").2.filter
        (fun kv => !(kv.1 == "limit" || kv.1 == "offset"))
        = (buildFilterClause req.filters "f").2 := by
      apply List.filter_eq_self.mpr
      intro kv hkv
      obtain ⟨suf, hsuf⟩ := buildFilterClause_keys req.filters "f" kv hkv
      simp only [hsuf]
      exact f_key_ne_pagination suf
    have h2 : List.filter (fun kv => !(kv.1 == "limit" || kv.1 == "offset"))
        [(("limit" : String), Value.int req.page_size),
         ("offset", Value.int (((req.page - 1) * req.page_size : Nat)))] = [] := rfl
    rw [h1, h2, List.append_nil]
  · simp only [sopQueryPlan, String.append_assoc]
  · simp only [sopQueryPlan, String.append_assoc]
  · simp only [sopQueryPlan]
    rw [List.filter_append]
    have h1 : (buildWhereClause sreq.filters).2.filter
        (fun kv => !(kv.1 == "limit" || kv.1 == "offset"))
        = (buildWhereClause sreq.filters).2 :=
      List.filter_eq_self.mpr (sopWhereParams_keys sreq.filters)
    have h2 : List.filter (fun kv => !(kv.1 == "limit" || kv.1 == "offset"))
        [(("limit" : String), Value.int sreq.page_size),
         ("offset", Value.int (((sreq.page - 1) * sreq.page_size : Nat)))] = [] := rfl
    rw [h1, h2, List.append_nil]

/-- `app/schemas/data.py` `AggregationFunction`. -/
inductive AggregationFunction where
  | count | sum | avg | min | max
  | distinctCount | median
  | percentile90 | percentile95 | percentile99
deriving DecidableEq

/-- The string value of each `AggregationFunction` member (what
`agg.function.value` interpolates into SQL and derived aliases). -/
def aggValue : AggregationFunction → String
  | .count => "count"
  | .sum => "sum"
  | .avg => "avg"
  | .min => "min"
  | .max => "max"
  | .distinctCount => "uniqExact"
  | .median => "median"
  | .percentile90 => "quantile(0.9)"
  | .percentile95 => "quantile(0.95)"
  | .percentile99 => "quantile(0.99)"

/-- `app/schemas/data.py` `ColumnAggregation`. The source field `alias` is
named `aliasOpt` here because `alias` is a Lean keyword. -/
structure ColumnAggregation where
  column : String
  function : AggregationFunction
  aliasOpt : Option String := none

/-- The alias text denoted by `agg.alias or f"{agg.function.value}_{agg.column}"`
(Python `or`: an absent or empty alias falls back to the derived one). This is
the value the expression is written to produce; at runtime the attribute
access `.value` raises AttributeError, because `use_enum_values` stores the
enum field as a plain `str` — see `aliasOrDeriveE` for the faithful
error-aware version. -/
def aliasOf (agg : ColumnAggregation) : String :=
  match agg.aliasOpt with
  | some a => if a = "" then aggValue agg.function ++ "_" ++ agg.column else a
  | none => aggValue agg.function ++ "_" ++ agg.column

/-- `DataService._get_time_function`. `TimeGranularity` is a `str` enum (and
the schemas use `use_enum_values`), so the granularity is modelled as its
string value; the dict plus `.get(granularity, col)` becomes a lookup with
the sanitized column as default. -/
def getTimeFunction (granularity : String) (column : String) : String :=
  let col := sanitizeIdentifier column
  let functions : List (String × String) :=
    [("minute", "toStartOfMinute(" ++ col ++ ")"),
     ("hour", "toStartOfHour(" ++ col ++ ")"),
     ("day", "toStartOfDay(" ++ col ++ ")"),
     ("week", "toStartOfWeek(" ++ col ++ ")"),
     ("month", "toStartOfMonth(" ++ col ++ ")"),
     ("quarter", "toStartOfQuarter(" ++ col ++ ")"),
     ("year", "toStartOfYear(" ++ col ++ ")")]
  (functions.lookup granularity).getD col

/-- `app/schemas/data.py` `AggregationRequest` (table reference already
resolved, as in `DataQueryRequest`). -/
structure AggregationRequest where
  tableName : String
  aggregations : List ColumnAggregation
  group_by : List String := []
  filters : Option FilterParams := none
  time_column : Option String := none
  time_granularity : Option String := none
  sort : List SortParams := []
  limit : Int := 1000

/-- The three lists `DataService.aggregate_data` builds in step:
`select_parts`, `result_columns`, `group_by_cols`. -/
structure AggSelectState where
  selectParts : List String := []
  resultColumns : List String := []
  groupByCols : List String := []

/-- Python truthiness of `request.time_column and request.time_granularity`. -/
def hasTimeBucket (req : AggregationRequest) : Bool :=
  match req.time_column, req.time_granularity with
  | some tc, some tg => tc != "" && tg != ""
  | _, _ => false

/-- The `if request.time_column and request.time_granularity:` block of
`aggregate_data`: the time expression is selected as `time_bucket` and that
synthetic name becomes the first result and group-by column. -/
def aggInit (req : AggregationRequest) : AggSelectState :=
  match req.time_column, req.time_granularity with
  | some tc, some tg =>
    if tc != "" && tg != "" then
      let timeExpr := getTimeFunction tg tc
      { selectParts := [timeExpr ++ " as time_bucket"],
        resultColumns := ["time_bucket"],
        groupByCols := ["time_bucket"] }
    else {}
  | _, _ => {}

/-- The `for col in request.group_by:` loop body of `aggregate_data`. -/
def aggGroupStep (st : AggSelectState) (col : String) : AggSelectState :=
  let s := sanitizeIdentifier col
  { selectParts := st.selectParts ++ [s],
    resultColumns := st.resultColumns ++ [col],
    groupByCols := st.groupByCols ++ [s] }

/-- The fragments the `for agg in request.aggregations:` loop body of
`aggregate_data` is written to append. Like `aliasOf`, this describes the
denoted text only: the f-string of data.py:222 evaluates
`agg.function.value` on a plain `str` and raises AttributeError at runtime —
see `aggAggStepE`. -/
def aggAggStep (st : AggSelectState) (agg : ColumnAggregation) : AggSelectState :=
  let c := sanitizeIdentifier agg.column
  let al := aliasOf agg
  { selectParts := st.selectParts
      ++ [aggValue agg.function ++ "(" ++ c ++ ") as `" ++ al ++ "`"],
    resultColumns := st.resultColumns ++ [al],
    groupByCols := st.groupByCols }

/-- The state after the three build phases of `aggregate_data`. -/
def aggSelectState (req : AggregationRequest) : AggSelectState :=
  req.aggregations.foldl aggAggStep (req.group_by.foldl aggGroupStep (aggInit req))

/-- The `columns` field of the `AggregationResponse` that `aggregate_data`
is written to build (never reached at runtime — see `aggSelectStateE`). -/
def aggregateResultColumns (req : AggregationRequest) : List String :=
  (aggSelectState req).resultColumns

/-- The runtime exception kinds the embedding distinguishes. -/
inductive PyError where
  | attributeError
deriving DecidableEq

/-- Attribute access `.value` on a plain `str`. `schemas/base.py` sets
`use_enum_values=True`, so a validated enum field holds the enum's value — a
plain string — and accessing `.value` on it raises AttributeError. -/
def strValueAttr (_s : String) : Except PyError String :=
  Except.error PyError.attributeError

/-- data.py:221, `agg.alias or f"{agg.function.value}_{agg.column}"`, with
the runtime semantics of the attribute access: the f-string (and its
crashing `.value`) is evaluated only when the alias is falsy. -/
def aliasOrDeriveE (agg : ColumnAggregation) : Except PyError String :=
  match agg.aliasOpt with
  | some a =>
    if a = "" then do
      let v ← strValueAttr (aggValue agg.function)
      pure (v ++ "_" ++ agg.column)
    else pure a
  | none => do
    let v ← strValueAttr (aggValue agg.function)
    pure (v ++ "_" ++ agg.column)

/-- The `for agg in request.aggregations:` loop body of `aggregate_data`
(data.py:220-223) with runtime semantics: even when the alias is given,
the select-part f-string evaluates `agg.function.value` and raises. -/
def aggAggStepE (st : AggSelectState) (agg : ColumnAggregation) :
    Except PyError AggSelectState := do
  let c := sanitizeIdentifier agg.column
  let al ← aliasOrDeriveE agg
  let fv ← strValueAttr (aggValue agg.function)
  pure { selectParts := st.selectParts ++ [fv ++ "(" ++ c ++ ") as `" ++ al ++ "`"],
         resultColumns := st.resultColumns ++ [al],
         groupByCols := st.groupByCols }

/-- The three build phases of `aggregate_data` with runtime semantics: the
time-bucket and group-by phases are exception-free, the aggregation loop is
fallible. -/
def aggSelectStateE (req : AggregationRequest) : Except PyError AggSelectState :=
  req.aggregations.foldlM aggAggStepE (req.group_by.foldl aggGroupStep (aggInit req))

theorem aggAggStepE_error (st : AggSelectState) (agg : ColumnAggregation) :
    aggAggStepE st agg = Except.error PyError.attributeError := by
  rcases agg with ⟨c, f, al⟩
  rcases al with _ | a
  · rfl
  · by_cases h : a = "" <;> (simp [aggAggStepE, aliasOrDeriveE, strValueAttr, h]; try rfl)

theorem aggSelectStateE_error (req : AggregationRequest)
    (h : req.aggregations ≠ []) :
    aggSelectStateE req = Except.error PyError.attributeError := by
  unfold aggSelectStateE
  rcases hag : req.aggregations with _ | ⟨a, as⟩
  · exact absurd hag h
  · rw [List.foldlM_cons, aggAggStepE_error]
    rfl

theorem foldl_aggGroupStep (cols : List String) (st : AggSelectState) :
    (cols.foldl aggGroupStep st).resultColumns = st.resultColumns ++ cols ∧
    (cols.foldl aggGroupStep st).groupByCols
      = st.groupByCols ++ cols.map sanitizeIdentifier ∧
    (cols.foldl aggGroupStep st).selectParts
      = st.selectParts ++ cols.map sanitizeIdentifier := by
  induction cols generalizing st with
  | nil => simp
  | cons c cs ih =>
    obtain ⟨h1, h2, h3⟩ := ih (aggGroupStep st c)
    simp only [List.foldl_cons, List.map_cons]
    rw [h1, h2, h3]
    simp [aggGroupStep]

theorem foldl_aggAggStep (aggs : List ColumnAggregation) (st : AggSelectState) :
    (aggs.foldl aggAggStep st).resultColumns = st.resultColumns ++ aggs.map aliasOf ∧
    (aggs.foldl aggAggStep st).groupByCols = st.groupByCols ∧
    (aggs.foldl aggAggStep st).selectParts
      = st.selectParts ++ aggs.map (fun agg =>
          aggValue agg.function ++ "(" ++ sanitizeIdentifier agg.column
            ++ ") as `" ++ aliasOf agg ++ "`") := by
  induction aggs generalizing st with
  | nil => simp
  | cons a as ih =>
    obtain ⟨h1, h2, h3⟩ := ih (aggAggStep st a)
    simp only [List.foldl_cons, List.map_cons]
    rw [h1, h2, h3]
    simp [aggAggStep]

/-- A minimal aggregation request (the schema requires at least one
aggregation), for C5. -/
def c5Req : AggregationRequest :=
  { tableName := "t",
    aggregations := [⟨"value", .sum, none⟩],
    group_by := ["territory"] }

/-- C5: `aggregate_data` never builds its response column list. Because
`use_enum_values` (schemas/base.py) stores `agg.function` as a plain string,
the f-string of data.py:222 evaluates `agg.function.value` and raises
AttributeError on the first aggregation of every request (the schema requires
at least one), before any query or response is assembled — the code crashes
where the spec's ordered column list is clearly the intent. -/
theorem aggregate_data_always_raises (req : AggregationRequest)
    (h : req.aggregations ≠ []) :
    aggSelectStateE req = Except.error PyError.attributeError :=
  aggSelectStateE_error req h

theorem aggregate_data_always_raises_witness :
    c5Req.aggregations ≠ [] ∧
    aggSelectStateE c5Req = Except.error PyError.attributeError :=
  ⟨by simp [c5Req], aggregate_data_always_raises c5Req (by simp [c5Req])⟩

/-- An aggregation request whose two aggregations resolve to the same alias. -/
def c6Req : AggregationRequest :=
  { tableName := "t",
    aggregations := [⟨"v", .sum, none⟩, ⟨"v", .sum, some "sum_v"⟩] }

/-- A collision-free single-aggregation request, for comparison in the C6
counterexample. -/
def c6NoCollisionReq : AggregationRequest :=
  { tableName := "t",
    aggregations := [⟨"v", .sum, some "total_v"⟩] }

/-- C6 counterexample: at a request whose two aggregations resolve to the
same alias `sum_v`, translation does not fail with AliasCollision: it fails
with AttributeError while building the first aggregation (data.py:221-222,
`.value` on the plain string that `use_enum_values` stores) — exactly as it
does for a collision-free request, so the failure is not a collision check;
and the alias derivation itself raises before producing `sum_v`. -/
theorem alias_collision_not_detected_cex :
    aggSelectStateE c6Req = Except.error PyError.attributeError ∧
    aggSelectStateE c6NoCollisionReq = Except.error PyError.attributeError ∧
    aliasOrDeriveE ⟨"v", .sum, none⟩ = Except.error PyError.attributeError :=
  ⟨rfl, rfl, rfl⟩

/-- C6 amended: the code attempts to derive the absent alias as
`{function}_{column}`, but the derivation evaluates `.value` on the plain
string that `use_enum_values` stores, so it raises AttributeError; building
the aggregation select raises the same error for every aggregation, with or
without a collision, so every aggregation request fails with AttributeError —
never AliasCollision — and no collision check exists anywhere in
`aggregate_data`. -/
theorem alias_derivation_and_no_collision_check :
    (∀ agg : ColumnAggregation, agg.aliasOpt = none →
      aliasOrDeriveE agg = Except.error PyError.attributeError) ∧
    (∀ (st : AggSelectState) (agg : ColumnAggregation),
      aggAggStepE st agg = Except.error PyError.attributeError) := by
  constructor
  · intro agg h
    simp [aliasOrDeriveE, h, strValueAttr]
  · exact aggAggStepE_error

theorem alias_derivation_and_no_collision_check_witness :
    aliasOrDeriveE ⟨"value", .sum, none⟩ = Except.error PyError.attributeError ∧
    aggAggStepE {} ⟨"v", .sum, some "sum_v"⟩ = Except.error PyError.attributeError :=
  ⟨alias_derivation_and_no_collision_check.1 ⟨"value", .sum, none⟩ rfl,
   alias_derivation_and_no_collision_check.2 {} ⟨"v", .sum, some "sum_v"⟩⟩

/-- A concrete aggregation request with a time bucket, for the C8 witness. -/
def c8Req : AggregationRequest :=
  { tableName := "t",
    aggregations := [⟨"v", .sum, none⟩],
    group_by := ["g"],
    time_column := some "ts",
    time_granularity := some "day" }

/-- C8: the time bucketing resolver maps each of the seven granularities to
the corresponding ClickHouse truncation over the sanitized column, returns
the raw sanitized column unchanged for any unknown granularity, and when a
time bucket is used in `aggregate_data` the resolved expression is selected
under the canonical alias `time_bucket`, which is also the first group-by
and result column. -/
theorem time_bucketing_resolver_spec :
    (∀ col : String,
      getTimeFunction "minute" col = "toStartOfMinute(" ++ sanitizeIdentifier col ++ ")" ∧
      getTimeFunction "hour" col = "toStartOfHour(" ++ sanitizeIdentifier col ++ ")" ∧
      getTimeFunction "day" col = "toStartOfDay(" ++ sanitizeIdentifier col ++ ")" ∧
      getTimeFunction "week" col = "toStartOfWeek(" ++ sanitizeIdentifier col ++ ")" ∧
      getTimeFunction "month" col = "toStartOfMonth(" ++ sanitizeIdentifier col ++ ")" ∧
      getTimeFunction "quarter" col = "toStartOfQuarter(" ++ sanitizeIdentifier col ++ ")" ∧
      getTimeFunction "year" col = "toStartOfYear(" ++ sanitizeIdentifier col ++ ")") ∧
    (∀ g col : String,
      g ∉ (["minute", "hour", "day", "week", "month", "quarter", "year"] : List String) →
      getTimeFunction g col = sanitizeIdentifier col) ∧
    (∀ (req : AggregationRequest) (tc tg : String),
      req.time_column = some tc → req.time_granularity = some tg →
      tc ≠ "" → tg ≠ "" →
      (aggSelectState req).selectParts.head?
          = some (getTimeFunction tg tc ++ " as time_bucket") ∧
      (aggSelectState req).groupByCols.head? = some "time_bucket" ∧
      (aggSelectState req).resultColumns.head? = some "time_bucket") := by
  refine ⟨fun col => ⟨rfl, rfl, rfl, rfl, rfl, rfl, rfl⟩, ?_, ?_⟩
  · intro g col h
    simp only [List.mem_cons, List.not_mem_nil, or_false, not_or] at h
    obtain ⟨h1, h2, h3, h4, h5, h6, h7⟩ := h
    simp [getTimeFunction, List.lookup,
      beq_false_of_ne h1, beq_false_of_ne h2, beq_false_of_ne h3,
      beq_false_of_ne h4, beq_false_of_ne h5, beq_false_of_ne h6,
      beq_false_of_ne h7]
  · intro req tc tg htc htg htcne htgne
    have hinit : aggInit req =
        { selectParts := [getTimeFunction tg tc ++ " as time_bucket"],
          resultColumns := ["time_bucket"],
          groupByCols := ["time_bucket"] } := by
      unfold aggInit
      rw [htc, htg]
      simp only
      rw [if_pos (by simp [htcne, htgne])]
    obtain ⟨hA1, hA2, hA3⟩ :=
      foldl_aggAggStep req.aggregations (req.group_by.foldl aggGroupStep (aggInit req))
    obtain ⟨hG1, hG2, hG3⟩ := foldl_aggGroupStep req.group_by (aggInit req)
    unfold aggSelectState
    rw [hA1, hA2, hA3, hG1, hG2, hG3, hinit]
    simp

theorem time_bucketing_resolver_spec_witness :
    getTimeFunction "fortnight" "ts" = sanitizeIdentifier "ts" ∧
    (aggSelectState c8Req).selectParts.head?
        = some (getTimeFunction "day" "ts" ++ " as time_bucket") ∧
    (aggSelectState c8Req).groupByCols.head? = some "time_bucket" :=
  ⟨time_bucketing_resolver_spec.2.1 "fortnight" "ts" (by decide),
   (time_bucketing_resolver_spec.2.2 c8Req "ts" "day" rfl rfl
      (by decide) (by decide)).1,
   (time_bucketing_resolver_spec.2.2 c8Req "ts" "day" rfl rfl
      (by decide) (by decide)).2.1⟩

/-- A result row as returned by the executor: an ordered mapping from column
name to value. -/
abbrev Row := List (String × Value)

/-- The external query executor (`db.fetch_all`): query text plus named
parameters to rows. Out of scope per the spec, so taken as a parameter. -/
abbrev Exec := String → List (String × Value) → List Row

/-- Python `row[key]` on an executor row. -/
def rowGet (row : Row) (key : String) : Value :=
  match row.find? (fun kv => kv.1 == key) with
  | some kv => kv.2
  | none => Value.null

/-- The `{"x": row["x"], "y": row["y"]}` point dictionaries both chart paths
build. -/
def chartPoint (row : Row) : Row :=
  [("x", rowGet row "x"), ("y", rowGet row "y")]

/-- A chart series: name plus point dictionaries (`ChartSeries` /
`SopChartSeries`). -/
structure ChartSeries where
  name : String
  data : List Row

/-- `app/schemas/sop.py` `SopChartRequest`. -/
structure SopChartRequest where
  filters : Option SopFilterParams := none
  chart_type : String := "line"
  x_axis : String
  y_axis : String := "value"
  series_by : Option String := none
  aggregation : String := "sum"
  limit : Int := 100

/-- The aggregation-function fallback of `SopService.get_chart_data`: an
unrecognized function degrades to `sum`. -/
def sopChartAggFunc (req : SopChartRequest) : String :=
  if (["sum", "avg", "count", "min", "max"] : List String).contains req.aggregation
  then req.aggregation else "sum"

/-- The parameters passed to both chart queries of
`SopService.get_chart_data`. -/
def sopChartParams (req : SopChartRequest) : List (String × Value) :=
  (buildWhereClause req.filters).2 ++ [("limit", Value.int req.limit)]

/-- The multi-series chart query text of `SopService.get_chart_data`. -/
def sopChartQueryMulti (req : SopChartRequest) (sb : String) : String :=
  "SELECT " ++ sanitizeColumn req.x_axis ++ " as x, " ++ sanitizeColumn sb
    ++ " as series, " ++ sopChartAggFunc req ++ "(" ++ sanitizeColumn req.y_axis
    ++ ") as y FROM sop_facts " ++ (buildWhereClause req.filters).1
    ++ " GROUP BY " ++ req.x_axis ++ ", " ++ sb
    ++ " ORDER BY " ++ req.x_axis ++ ", " ++ sb ++ " LIMIT %(limit)s"

/-- The single-series chart query text of `SopService.get_chart_data`. -/
def sopChartQuerySingle (req : SopChartRequest) : String :=
  "SELECT " ++ sanitizeColumn req.x_axis ++ " as x, " ++ sopChartAggFunc req
    ++ "(" ++ sanitizeColumn req.y_axis ++ ") as y FROM sop_facts "
    ++ (buildWhereClause req.filters).1 ++ " GROUP BY " ++ req.x_axis
    ++ " ORDER BY " ++ req.x_axis ++ " LIMIT %(limit)s"

/-- One iteration of the series-grouping loop of `SopService.get_chart_data`:
append the point to the named series, creating it on first sight (Python dict
insertion order is the association-list order). -/
def seriesInsert (acc : List (String × List Row)) (name : String) (pt : Row) :
    List (String × List Row) :=
  if acc.any (fun p => p.1 == name) then
    acc.map (fun p => if p.1 == name then (p.1, p.2 ++ [pt]) else p)
  else acc ++ [(name, [pt])]

/-- The loop body applied to one raw row: the series key is `str(row["series"])`. -/
def partitionStep (acc : List (String × List Row)) (row : Row) :
    List (String × List Row) :=
  seriesInsert acc (pyStr (rowGet row "series")) (chartPoint row)

/-- The whole series-grouping loop of `SopService.get_chart_data`. -/
def partitionBySeries (rows : List Row) : List (String × List Row) :=
  rows.foldl partitionStep []

/-- `SopService.get_chart_data`: the list of series it returns (the
surrounding response metadata is label/count bookkeeping). A falsy
`series_by` (absent or empty) takes the single-series branch. -/
def sopGetChartData (req : SopChartRequest) (exec : Exec) : List ChartSeries :=
  match req.series_by with
  | some sb =>
    if sb = "" then
      [⟨labelFor req.y_axis,
        (exec (sopChartQuerySingle req) (sopChartParams req)).map chartPoint⟩]
    else
      (partitionBySeries (exec (sopChartQueryMulti req sb) (sopChartParams req))).map
        (fun p => ⟨p.1, p.2⟩)
  | none =>
    [⟨labelFor req.y_axis,
      (exec (sopChartQuerySingle req) (sopChartParams req)).map chartPoint⟩]

/-- `app/schemas/data.py` `ChartDataRequest` (the fields
`DataService.get_chart_data` reads; table reference already resolved). -/
structure ChartDataRequest where
  tableName : String
  chart_type : String := "line"
  x_column : String
  y_columns : List String
  y_aggregations : Option (List AggregationFunction) := none
  filters : Option FilterParams := none
  time_granularity : Option String := none
  limit : Int := 1000

/-- The per-column aggregation of `DataService.get_chart_data`: `avg` unless
a truthy `y_aggregations` list covers index `i`. Note: the source reads
`request.y_aggregations[i].value` (data.py:296); under `use_enum_values` the
list holds plain strings, so providing `y_aggregations` raises
AttributeError at runtime — only the modelled `avg` default path executes. -/
def chartAggFor (ya : Option (List AggregationFunction)) (i : Nat) : String :=
  match ya with
  | some (a :: tl) =>
    match (a :: tl)[i]? with
    | some f => aggValue f
    | none => "avg"
  | _ => "avg"

/-- The x expression of `DataService.get_chart_data`: time-bucketed when a
truthy granularity is given. -/
def dataChartXExpr (req : ChartDataRequest) : String :=
  match req.time_granularity with
  | some tg =>
    if tg = "" then sanitizeIdentifier req.x_column else getTimeFunction tg req.x_column
  | none => sanitizeIdentifier req.x_column

/-- The per-y-column query text of `DataService.get_chart_data`. -/
def dataChartQuery (req : ChartDataRequest) (yColumn aggFunc : String) : String :=
  "SELECT " ++ dataChartXExpr req ++ " as x, " ++ aggFunc ++ "("
    ++ sanitizeIdentifier yColumn ++ ") as y FROM "
    ++ sanitizeIdentifier req.tableName ++ " "
    ++ (let wc := (buildFilterClause req.filters "f").1
        if wc = "" then "" else "WHERE " ++ wc)
    ++ " GROUP BY x ORDER BY x LIMIT %(limit)s"

/-- `DataService.get_chart_data`: one query (and one series, named after the
y column) per requested y column, in request order. -/
def dataGetChartData (req : ChartDataRequest) (exec : Exec) : List ChartSeries :=
  (req.y_columns.enum).map fun p =>
    let aggFunc := chartAggFor req.y_aggregations p.1
    let rows := exec (dataChartQuery req p.2 aggFunc)
      ((buildFilterClause req.filters "f").2 ++ [("limit", Value.int req.limit)])
    ⟨p.2, rows.map chartPoint⟩

theorem seriesInsert_names (acc : List (String × List Row)) (name : String) (pt : Row) :
    (seriesInsert acc name pt).map Prod.fst =
      if acc.any (fun p => p.1 == name) then acc.map Prod.fst
      else acc.map Prod.fst ++ [name] := by
  unfold seriesInsert
  split
  · rw [List.map_map]
    apply List.map_congr_left
    intro p _
    by_cases hp : p.1 = name <;> simp [hp]
  · simp

theorem partition_fold_mem (rows : List Row) (acc : List (String × List Row))
    (v : String) :
    (v ∈ (rows.foldl partitionStep acc).map Prod.fst ↔
      v ∈ acc.map Prod.fst ∨
        v ∈ rows.map (fun row => pyStr (rowGet row "series"))) := by
  induction rows generalizing acc with
  | nil => simp
  | cons r rs ih =>
    simp only [List.foldl_cons, List.map_cons, List.mem_cons]
    rw [ih]
    unfold partitionStep
    rw [seriesInsert_names]
    split
    · rename_i hany
      have hname : pyStr (rowGet r "series") ∈ acc.map Prod.fst := by
        rw [List.any_eq_true] at hany
        obtain ⟨p, hp, hpe⟩ := hany
        rw [beq_iff_eq] at hpe
        exact hpe ▸ List.mem_map_of_mem Prod.fst hp
      constructor
      · tauto
      · rintro (h | rfl | h)
        · tauto
        · exact Or.inl hname
        · tauto
    · simp only [List.mem_append, List.mem_singleton]
      tauto

theorem partition_fold_nodup (rows : List Row) (acc : List (String × List Row))
    (h : (acc.map Prod.fst).Nodup) :
    ((rows.foldl partitionStep acc).map Prod.fst).Nodup := by
  induction rows generalizing acc with
  | nil => exact h
  | cons r rs ih =>
    apply ih
    unfold partitionStep
    rw [seriesInsert_names]
    split
    · exact h
    · rename_i hany
      rw [List.nodup_append]
      refine ⟨h, List.nodup_singleton _, ?_⟩
      intro a ha hmem
      rw [List.mem_singleton] at hmem
      subst hmem
      apply hany
      rw [List.mem_map] at ha
      obtain ⟨p, hp, hpe⟩ := ha
      rw [List.any_eq_true]
      exact ⟨p, hp, by rw [beq_iff_eq]; exact hpe⟩

/-- A SOP chart request without `series_by`, used for C7. -/
def c7SingleReq : SopChartRequest :=
  { x_axis := "month", y_axis := "value", series_by := none }

/-- An executor returning one aggregated row, used for C7. -/
def c7Exec : Exec := fun _ _ => [[("x", Value.int 1), ("y", Value.int 10)]]

/-- C7 counterexample: in the S&OP service a chart request without
`series_by` for y column `value` produces a single series named by the
column's display label (`Прогноз`), not by the column name itself, so the
series is not literally "named after that column". -/
theorem sop_series_named_by_label_cex :
    ((sopGetChartData c7SingleReq c7Exec).map fun s => s.name) = ["Прогноз"] ∧
    ("Прогноз" : String) ≠ "value" :=
  ⟨rfl, by decide⟩

/-- C7 amended: with `series_by` set (and truthy), the S&OP chart result has
one series per distinct discriminator value observed in the returned rows —
the series names are exactly the distinct `str(row["series"])` values, with
no duplicates. Without `series_by`, each y column produces exactly one
series: in the generic data service it is named exactly after the column; in
the S&OP service the single series is named by the column's display label,
falling back to the column name. -/
theorem chart_series_partitioning :
    (∀ (req : SopChartRequest) (exec : Exec) (sb : String),
      req.series_by = some sb → sb ≠ "" →
      (((sopGetChartData req exec).map fun s => s.name).Nodup ∧
       ∀ v, (v ∈ (sopGetChartData req exec).map fun s => s.name) ↔
         v ∈ (exec (sopChartQueryMulti req sb) (sopChartParams req)).map
               fun row => pyStr (rowGet row "series"))) ∧
    (∀ (req : SopChartRequest) (exec : Exec),
      req.series_by = none →
      ((sopGetChartData req exec).map fun s => s.name) = [labelFor req.y_axis]) ∧
    (∀ (req : ChartDataRequest) (exec : Exec),
      ((dataGetChartData req exec).map fun s => s.name) = req.y_columns) := by
  refine ⟨?_, ?_, ?_⟩
  · intro req exec sb hsb hne
    have hser : sopGetChartData req exec =
        (partitionBySeries (exec (sopChartQueryMulti req sb) (sopChartParams req))).map
          (fun p => ⟨p.1, p.2⟩) := by
      unfold sopGetChartData
      rw [hsb]
      dsimp only
      rw [if_neg hne]
    rw [hser, List.map_map]
    have hfst : ((fun s : ChartSeries => s.name)
        ∘ (fun p : String × List Row => (⟨p.1, p.2⟩ : ChartSeries))) = Prod.fst := rfl
    rw [hfst]
    constructor
    · exact partition_fold_nodup _ [] (by simp)
    · intro v
      unfold partitionBySeries
      rw [partition_fold_mem]
      simp
  · intro req exec h
    unfold sopGetChartData
    rw [h]
    rfl
  · intro req exec
    unfold dataGetChartData
    rw [List.map_map]
    exact List.enum_map_snd req.y_columns

/-- A SOP chart request with a series discriminator, used for the C7
witness. -/
def c7MultiReq : SopChartRequest :=
  { x_axis := "month", y_axis := "value", series_by := some "territory" }

/-- An executor returning three rows over two territories, used for the C7
witness. -/
def c7MultiExec : Exec := fun _ _ =>
  [[("x", Value.int 1), ("series", Value.str "North"), ("y", Value.int 10)],
   [("x", Value.int 1), ("series", Value.str "South"), ("y", Value.int 7)],
   [("x", Value.int 2), ("series", Value.str "North"), ("y", Value.int 5)]]

theorem chart_series_partitioning_witness :
    (((sopGetChartData c7MultiReq c7MultiExec).map fun s => s.name).Nodup ∧
     ∀ v, (v ∈ (sopGetChartData c7MultiReq c7MultiExec).map fun s => s.name) ↔
       v ∈ (c7MultiExec (sopChartQueryMulti c7MultiReq "territory")
              (sopChartParams c7MultiReq)).map fun row => pyStr (rowGet row "series")) ∧
    ((sopGetChartData c7SingleReq c7Exec).map fun s => s.name)
      = [labelFor c7SingleReq.y_axis] :=
  ⟨chart_series_partitioning.1 c7MultiReq c7MultiExec "territory" rfl (by decide),
   chart_series_partitioning.2.1 c7SingleReq c7Exec rfl⟩

/-- One CSV field under the `csv` module's default dialect (QUOTE_MINIMAL):
quote when the field contains the delimiter, the quote character or a line
break, doubling embedded quotes. -/
def csvField (s : String) : String :=
  if s.toList.any (fun ch => ch == ',' || ch == '"' || ch == '\r' || ch == '\n')
  then "\"" ++ s.replace "\"" "\"\"" ++ "\""
  else s

/-- One CSV record: comma-separated fields terminated by CRLF (the `csv`
module's default line terminator). -/
def csvLine (fields : List String) : String :=
  String.intercalate "," (fields.map csvField) ++ "\r\n"

/-- How the `csv` writer renders a cell: `None` becomes the empty string,
anything else its `str()`. -/
def csvValueStr : Value → String
  | .null => ""
  | v => pyStr v

/-- `DataService._generate_csv`: empty data gives empty bytes; otherwise the
header row is the first row's keys and each record lists the row's cells in
header order (a missing key falls back to the writer's default empty
rest-value). -/
def dataGenerateCsv (data : List Row) : String :=
  match data with
  | [] => ""
  | row0 :: _ =>
    let fieldnames := row0.map Prod.fst
    csvLine fieldnames
      ++ String.join (data.map fun row =>
          csvLine (fieldnames.map fun f => csvValueStr (rowGet row f)))

/-- `SopService._generate_csv`: same shape, but the header row carries the
display labels (`COLUMN_LABELS.get(f, f)`) of the first row's keys. -/
def sopGenerateCsv (data : List Row) : String :=
  match data with
  | [] => ""
  | row0 :: _ =>
    let fieldnames := row0.map Prod.fst
    csvLine (fieldnames.map fun f => labelFor f)
      ++ String.join (data.map fun row =>
          csvLine (fieldnames.map fun f => csvValueStr (rowGet row f)))

/-- C9 counterexample: exporting an empty result set yields a zero-byte CSV
artifact in both services — there is no header row, contradicting the claim
that the empty artifact contains a valid header row. -/
theorem empty_export_csv_has_no_header_cex :
    dataGenerateCsv [] = "" ∧ sopGenerateCsv [] = "" ∧
    (dataGenerateCsv []).length = 0 :=
  ⟨rfl, rfl, rfl⟩

theorem csvLine_length (fields : List String) : 2 ≤ (csvLine fields).length := by
  unfold csvLine
  rw [String.length_append]
  have h2 : ("\r\n" : String).length = 2 := rfl
  omega

/-- C9 amended: the CSV encoders of both services never fail, and they return
the empty byte string exactly on an empty result set (no header row is
emitted in that case); any non-empty result set produces a non-empty
artifact whose first record is the header row. -/
theorem empty_export_csv_is_empty_bytes (rows : List Row) :
    (dataGenerateCsv rows = "" ↔ rows = []) ∧
    (sopGenerateCsv rows = "" ↔ rows = []) := by
  rcases rows with _ | ⟨r, rs⟩
  · simp [dataGenerateCsv, sopGenerateCsv]
  · constructor <;> constructor <;> intro h
    · exfalso
      have hl := congrArg String.length h
      simp only [dataGenerateCsv] at hl
      rw [String.length_append] at hl
      have := csvLine_length (r.map Prod.fst)
      have h0 : ("" : String).length = 0 := rfl
      omega
    · exact absurd h (List.cons_ne_nil r rs)
    · exfalso
      have hl := congrArg String.length h
      simp only [sopGenerateCsv] at hl
      rw [String.length_append] at hl
      have := csvLine_length ((r.map Prod.fst).map fun f => labelFor f)
      have h0 : ("" : String).length = 0 := rfl
      omega
    · exact absurd h (List.cons_ne_nil r rs)

/-- C10: the S&OP column sanitizer is total: a column in the allow-list (the
display-label columns plus `id`, `created_at`, `updated_at`) is returned
backtick-quoted, and every other string is silently replaced by the
backtick-quoted `id` column — so an unrecognized select, sort, group-by or
chart-axis column is substituted by `id` rather than rejected. -/
theorem sop_sanitizer_total_with_id_fallback (col : String) :
    (col ∈ COLUMN_LABELS.map Prod.fst ++ ["id", "created_at", "updated_at"] →
      sanitizeColumn col = "`" ++ col ++ "`") ∧
    (col ∉ COLUMN_LABELS.map Prod.fst ++ ["id", "created_at", "updated_at"] →
      sanitizeColumn col = "`id`") := by
  constructor <;> intro h <;> simp [sanitizeColumn, h]

theorem sop_sanitizer_total_with_id_fallback_witness :
    sanitizeColumn "territory" = "`territory`" ∧
    sanitizeColumn "robert); DROP TABLE sop_facts" = "`id`" :=
  ⟨(sop_sanitizer_total_with_id_fallback "territory").1 (by decide),
   (sop_sanitizer_total_with_id_fallback "robert); DROP TABLE sop_facts").2 (by decide)⟩

end DataServices
